import Mathlib

/-!
# Verification of the Swedish car price scraper pipeline

A shallow embedding of `src/car_scraper.py`: the Blocket fetcher
(`search_cars`, `_parse_ad`, `_parse_ad_details` and the extraction
helpers), the Kafka publisher (`_connect`, `send_listing`, `send_batch`)
and the driver's aggregate statistics, together with theorems settling
the specification's claims about them.

Modelling conventions:
* Python attributes that are accessed defensively (`hasattr` /
  `getattr(_, _, default)` / `dict.get`) become `Option` fields, where
  `none` means the attribute or key is absent.
* Exceptions become `Except` values; a caught exception is turned into
  the value the handler produces.
* External effects (the marketplace API call, each Kafka send, each
  Kafka connection attempt) are supplied as explicit outcome parameters,
  since the code only branches on whether they succeed or raise.
* Wall-clock timestamps (`datetime.utcnow()`) are passed in as an opaque
  `now : String` parameter.
-/

set_option autoImplicit false

namespace CarScraper

/-- One entry of a raw ad's `images` list: a dict whose `url` key may be
absent (`none`). An empty string models a present-but-empty URL, which
Python treats as falsy. -/
structure Image where
  url : Option String
  deriving DecidableEq, Repr

/-- A raw ad as returned by the Blocket API, with every attribute the
code reads.  `none` throughout means the attribute is missing on this ad
(the code probes with `hasattr`/`getattr`).  `ad_id` is stored already
converted to a string (the code applies `str(...)`); `ad_id = none`
models an ad object with no `ad_id` attribute, where the access raises
`AttributeError`.  `price = some v` models a present `price` dict whose
`value` key holds `v`; `location = some n` models a present, truthy
`location` dict whose `name` key holds `n`. -/
structure RawAd where
  ad_id : Option String
  subject : Option String
  price : Option (Option Int)
  year : Option Int
  mileage : Option Int
  location : Option (Option String)
  images : Option (List Image)
  make : Option String
  model : Option String
  fuel_type : Option String
  transmission : Option String
  deriving DecidableEq, Repr

/-- A raw detail ad (`get_ad` result): the search-result attributes plus
the detail-only ones read by `_parse_ad_details`. -/
structure RawAdDetails extends RawAd where
  body : Option String
  list_time : Option String
  body_type : Option String
  color : Option String
  engine_power : Option Int
  deriving DecidableEq, Repr

/-- The canonical summary listing record built by `_parse_ad`.
Conditionally-attached car attributes (`make`, …) are `Option` fields:
`none` means the key was not added to the dict. -/
structure ListingRecord where
  listing_id : String
  title : String
  price : Option Int
  year : Option Int
  mileage : Option Int
  location : String
  url : String
  image_url : Option String
  scraped_at : String
  source : String
  category : String
  make : Option String
  model : Option String
  fuel_type : Option String
  transmission : Option String
  deriving DecidableEq, Repr

/-- The detail record built by `_parse_ad_details`. -/
structure DetailRecord where
  listing_id : String
  title : String
  description : String
  price : Option Int
  year : Option Int
  mileage : Option Int
  location : String
  url : String
  images : List String
  posted_date : Option String
  scraped_at : String
  source : String
  category : String
  make : Option String
  model : Option String
  fuel_type : Option String
  transmission : Option String
  body_type : Option String
  color : Option String
  engine_power : Option Int
  deriving DecidableEq, Repr

/-- Embeds `BlocketCarScraper._extract_location`: if the ad has a truthy
`location` dict, return its `name` with default `"Unknown"`; otherwise
`"Unknown"`. -/
def extract_location (ad : RawAd) : String :=
  match ad.location with
  | some loc => loc.getD "Unknown"
  | none => "Unknown"

/-- Embeds `BlocketCarScraper._extract_image`: if the ad has a truthy (i.e.
non-empty) `images` list, return `images[0].get('url')`; otherwise
`None`. -/
def extract_image (ad : RawAd) : Option String :=
  match ad.images with
  | some imgs =>
      if imgs.isEmpty then none
      else
        match imgs with
        | img :: _ => img.url
        | [] => none
  | none => none

/-- Embeds `BlocketCarScraper._extract_all_images`: if the ad has a truthy
`images` list, return `[img.get('url') for img in ad.images if
img.get('url')]` (keep each URL that is present and non-empty, in
order); otherwise `[]`. -/
def extract_all_images (ad : RawAd) : List String :=
  match ad.images with
  | some imgs =>
      if imgs.isEmpty then []
      else
        imgs.filterMap fun img =>
          match img.url with
          | some u => if u = "" then none else some u
          | none => none
  | none => []

/-- Embeds `BlocketCarScraper._parse_ad`: build the standardized summary dict.
Any internal exception is caught and turns the result into `None`; the
only access that can raise on our `RawAd` model is `ad.ad_id` when the
attribute is absent. -/
def parse_ad (now : String) (ad : RawAd) : Option ListingRecord :=
  match ad.ad_id with
  | none => none
  | some aid =>
      some
        { listing_id := aid
          title := ad.subject.getD "Unknown"
          price := ad.price.getD none
          year := ad.year
          mileage := ad.mileage
          location := extract_location ad
          url := "https://www.blocket.se/" ++ aid
          image_url := extract_image ad
          scraped_at := now
          source := "blocket"
          category := "car"
          make := ad.make
          model := ad.model
          fuel_type := ad.fuel_type
          transmission := ad.transmission }

/-- Embeds `BlocketCarScraper._parse_ad_details`: build the detail dict; the
same catch-all applies, and the only raising access on our model is
`ad_details.ad_id` when absent. -/
def parse_ad_details (now : String) (ad : RawAdDetails) : Option DetailRecord :=
  match ad.ad_id with
  | none => none
  | some aid =>
      some
        { listing_id := aid
          title := ad.subject.getD "Unknown"
          description := ad.body.getD ""
          price := ad.price.getD none
          year := ad.year
          mileage := ad.mileage
          location := extract_location ad.toRawAd
          url := "https://www.blocket.se/" ++ aid
          images := extract_all_images ad.toRawAd
          posted_date := ad.list_time
          scraped_at := now
          source := "blocket"
          category := "car"
          make := ad.make
          model := ad.model
          fuel_type := ad.fuel_type
          transmission := ad.transmission
          body_type := ad.body_type
          color := ad.color
          engine_power := ad.engine_power }

/-- Outcome of the external `self.api.search_car(...)` call: either it
returns a list of raw ads, or it raises. -/
inductive FetchResult where
  | ok (ads : List RawAd)
  | raised (msg : String)
  deriving DecidableEq, Repr

/-- Embeds `BlocketCarScraper.search_cars`: if the API call raises, the outer
handler returns `[]`.  Otherwise iterate the results, `break` once
`idx >= max_results`, parse each ad and keep the non-`None` parses (the
per-ad handler plus `_parse_ad`'s own catch-all make a failed parse a
skip, never an abort). -/
def search_cars (now : String) (max_results : Nat) (res : FetchResult) :
    List ListingRecord :=
  match res with
  | .raised _ => []
  | .ok ads => (ads.take max_results).filterMap (parse_ad now)

/-! ## Publisher (`CarDataKafkaProducer`) -/

/-- A record handed to `send_listing`/`send_batch`.  The code treats it
as a plain dict and only inspects `listing.get('listing_id', 'unknown')`,
so we model exactly that key; `none` means the dict has no `listing_id`
key. -/
structure PubRecord where
  listing_id : Option String
  deriving DecidableEq, Repr

/-- A Python exception relevant to the send path: either an instance of
the `KafkaError` hierarchy (raised by `producer.send`/`future.get`,
including the acknowledgment timeout), or an exception outside it, such
as the `TypeError` the JSON value serializer raises on a
non-serializable payload. -/
inductive PyExc where
  | kafkaError (msg : String)
  | typeError (msg : String)
  deriving DecidableEq, Repr

/-- Whether an exception is caught by `except KafkaError`. -/
def is_kafka_error : PyExc → Bool
  | .kafkaError _ => true
  | .typeError _ => false

/-- Outcome of one physical send attempt (serialize, submit,
`future.get(timeout=10)`): it either succeeds or raises `e`. -/
inductive SendOutcome where
  | ok
  | fail (e : PyExc)
  deriving DecidableEq, Repr

/-- Embeds `CarDataKafkaProducer.send_listing` restricted to its key
computation: the key passed to `producer.send` is
`listing.get('listing_id', 'unknown')`. -/
def raw_key (r : PubRecord) : String :=
  r.listing_id.getD "unknown"

/-- The key actually put on the wire: the configured `key_serializer` is
`lambda k: k.encode('utf-8') if k else None`, so a falsy key (the empty
string) becomes an absent key, and any other key is sent as-is
(`none` = message sent with no key). -/
def message_key (r : PubRecord) : Option String :=
  let k := raw_key r
  if k = "" then none else some k

/-- Embeds `CarDataKafkaProducer.send_listing`: returns `True` on success;
`except KafkaError` turns a `KafkaError` into `False`; any other
exception propagates (`Except.error`). -/
def send_listing (r : PubRecord) (o : SendOutcome) : Except PyExc Bool :=
  match o with
  | .ok => .ok true
  | .fail e => if is_kafka_error e then .ok false else .error e

/-- The loop of `CarDataKafkaProducer.send_batch`: iterate the
listings, add 1 to `success_count` whenever `send_listing` returns
`True`, then flush (a no-op in this model) and return the tally.  Each
listing is paired with the outcome of its physical send; an exception
escaping `send_listing` escapes `send_batch` too. -/
def send_batch_go : List (PubRecord × SendOutcome) → Nat → Except PyExc Nat
  | [], success_count => .ok success_count
  | (r, o) :: rest, success_count =>
    match send_listing r o with
    | .error e => .error e
    | .ok true => send_batch_go rest (success_count + 1)
    | .ok false => send_batch_go rest success_count

/-- Embeds `CarDataKafkaProducer.send_batch`, entered with `success_count = 0`. -/
def send_batch (items : List (PubRecord × SendOutcome)) : Except PyExc Nat :=
  send_batch_go items 0

/-- Whether the outcome of a physical send is handled inside
`send_listing` (success, or an exception the `except KafkaError` clause
catches). -/
def outcome_caught : SendOutcome → Bool
  | .ok => true
  | .fail e => is_kafka_error e

/-- Trace of `CarDataKafkaProducer._connect`: how many connection
attempts were made, the durations of the `time.sleep` calls performed
between attempts, and whether the loop returned connected (`true`) or
re-raised the last `KafkaError` (`false`). -/
structure ConnectTrace where
  attempts : Nat
  sleeps : List Nat
  connected : Bool
  deriving DecidableEq, Repr

/-- Body of `_connect`'s `for attempt in range(max_retries)` loop,
structurally recursive on the number of remaining iterations.
`outcome attempt = true` means the `KafkaProducer(...)` construction on
that attempt succeeds, `false` means it raises `KafkaError`.  On a
failed attempt with `attempt < max_retries - 1` the code sleeps 5 and
continues; on the last attempt it re-raises. -/
def connect_go (outcome : Nat → Bool) (max_retries attempt : Nat) :
    Nat → ConnectTrace
  | 0 => ⟨attempt, [], false⟩
  | remaining + 1 =>
    if outcome attempt then ⟨attempt + 1, [], true⟩
    else if attempt < max_retries - 1 then
      let t := connect_go outcome max_retries (attempt + 1) remaining
      ⟨t.attempts, 5 :: t.sleeps, t.connected⟩
    else ⟨attempt + 1, [], false⟩

/-- Embeds `CarDataKafkaProducer._connect`: `max_retries = 3`, loop over
`range(3)`. -/
def connect (outcome : Nat → Bool) : ConnectTrace :=
  connect_go outcome 3 0 3

/-- The driver's publisher after `main`'s construction block: `live` if
`CarDataKafkaProducer(...)` succeeded, `dryRun` if construction raised
and the `except` branch set `kafka_producer = None`. -/
inductive ProducerState where
  | live
  | dryRun
  deriving DecidableEq, Repr

/-- Embeds the publisher initialization of `main`: construction succeeds exactly
when `_connect` manages to connect; any exception is caught and the
driver continues without a producer (dry-run mode). -/
def init_producer (outcome : Nat → Bool) : ProducerState :=
  if (connect outcome).connected then .live else .dryRun

/-! ## Driver statistics (`main`, lines 348–354) -/

/-- The slice of a collected listing that the statistics block reads:
its `price` and `year` values (`none` models both an absent key and an
explicit `null`, which `dict.get` cannot distinguish). -/
structure StatRecord where
  price : Option Int
  year : Option Int
  deriving DecidableEq, Repr

/-- Python truthiness of `l.get('price')`: false when the key is
missing, `None`, or the number `0`. -/
def truthy_price (l : StatRecord) : Bool :=
  match l.price with
  | some p => p != 0
  | none => false

/-- Python truthiness of `l.get('year')`. -/
def truthy_year (l : StatRecord) : Bool :=
  match l.year with
  | some y => y != 0
  | none => false

/-- Embeds the mean-price computation of `main`,
`sum(l['price'] for l in all_listings if l.get('price')) /
len([l for l in all_listings if l.get('price')])`,
with true division modelled exactly over `ℚ` and `ZeroDivisionError`
made explicit: Python raises when the denominator is `0`. -/
def mean_price (all_listings : List StatRecord) : Except String ℚ :=
  let priced := all_listings.filter truthy_price
  let total : Int := (priced.map fun l => l.price.getD 0).sum
  if priced.length = 0 then .error "ZeroDivisionError"
  else .ok ((total : ℚ) / (priced.length : ℚ))

/-- Embeds the year list of `main`, `[l['year'] for l in all_listings if
l.get('year')]`. -/
def year_list (all_listings : List StatRecord) : List Int :=
  (all_listings.filter truthy_year).map fun l => l.year.getD 0

/-- Embeds the year range of `main`: `(min(years), max(years))` when `years` is
truthy, nothing logged otherwise. -/
def year_range (all_listings : List StatRecord) : Option (Int × Int) :=
  let years := year_list all_listings
  if years.isEmpty then none
  else
    match years.min?, years.max? with
    | some lo, some hi => some (lo, hi)
    | _, _ => none

/-- The whole `if all_listings:` statistics block: skipped (no value,
no error) when the run collected nothing, otherwise the mean-price
division runs first and may raise. -/
def main_stats (all_listings : List StatRecord) :
    Except String (Option (ℚ × Option (Int × Int))) :=
  if all_listings.isEmpty then .ok none
  else
    match mean_price all_listings with
    | .error e => .error e
    | .ok avg => .ok (some (avg, year_range all_listings))

/-! ## Spec-phrased variants (for refinement claims) -/

/-- Spec §8 phrasing of summary image extraction: "take only the first
image's URL (or null if no images)". -/
def spec_first_image (ad : RawAd) : Option String :=
  (ad.images.getD []).head?.bind Image.url

/-- Spec §8 phrasing of detail image extraction: "all non-empty image
URLs in source order, duplicates preserved, filtering out any empty URL
entries". -/
def spec_all_images (ad : RawAd) : List String :=
  ((ad.images.getD []).map Image.url).reduceOption.filter fun u => !(u == "")

/-! ## Helper lemmas -/

theorem filterMap_map_some {α β : Type} (f : α → Option β) :
    ∀ l : List α, (∀ a ∈ l, (f a).isSome) → (l.filterMap f).map some = l.map f
  | [], _ => rfl
  | a :: l, h => by
    obtain ⟨b, hb⟩ := Option.isSome_iff_exists.mp (h a (List.mem_cons_self _ _))
    simp only [List.filterMap_cons, hb, List.map_cons]
    exact congrArg (some b :: ·)
      (filterMap_map_some f l fun x hx => h x (List.mem_cons_of_mem _ hx))

theorem send_batch_go_eq (items : List (PubRecord × SendOutcome))
    (h : ∀ x ∈ items, outcome_caught x.2 = true) (acc : Nat) :
    send_batch_go items acc
      = .ok (acc + items.countP fun x => x.2 == SendOutcome.ok) := by
  induction items generalizing acc with
  | nil => simp [send_batch_go]
  | cons hd tl ih =>
    obtain ⟨r, o⟩ := hd
    have hhd : outcome_caught o = true := h _ (List.mem_cons_self _ _)
    have htl : ∀ x ∈ tl, outcome_caught x.2 = true := fun x hx =>
      h x (List.mem_cons_of_mem _ hx)
    cases o with
    | ok =>
      simp only [send_batch_go, send_listing, ih htl, List.countP_cons]
      simp
      omega
    | fail e =>
      cases e with
      | kafkaError m =>
        simp only [send_batch_go, send_listing, is_kafka_error, if_pos rfl,
          ih htl, List.countP_cons]
        simp
      | typeError m => simp [outcome_caught, is_kafka_error] at hhd

theorem countP_ok_add_countP_ne (items : List (PubRecord × SendOutcome)) :
    (items.countP fun x => x.2 == SendOutcome.ok)
        + (items.countP fun x => x.2 != SendOutcome.ok) = items.length := by
  induction items with
  | nil => rfl
  | cons hd tl ih =>
    rw [List.countP_cons, List.countP_cons, List.length_cons]
    cases h : (hd.2 == SendOutcome.ok)
    · have h2 : (hd.2 != SendOutcome.ok) = true := by
        show (!(hd.2 == SendOutcome.ok)) = true
        rw [h]
        rfl
      rw [h2]
      simp only [Bool.false_eq_true, if_false, if_true]
      omega
    · have h2 : (hd.2 != SendOutcome.ok) = false := by
        show (!(hd.2 == SendOutcome.ok)) = false
        rw [h]
        rfl
      rw [h2]
      simp only [Bool.false_eq_true, if_false, if_true]
      omega

theorem filterMap_url_eq (imgs : List Image) :
    (imgs.filterMap fun img =>
        match img.url with
        | some u => if u = "" then none else some u
        | none => none)
      = ((imgs.map Image.url).reduceOption).filter fun u => !(u == "") := by
  induction imgs with
  | nil => rfl
  | cons img tl ih =>
    cases h : img.url with
    | none =>
      simp only [List.filterMap_cons, h, List.map_cons, List.reduceOption_cons_of_none, ih]
    | some u =>
      by_cases hu : u = ""
      · subst hu
        simp only [List.filterMap_cons, h, if_pos rfl, List.map_cons,
          List.reduceOption_cons_of_some, List.filter_cons, ih]
        simp
      · simp only [List.filterMap_cons, h, if_neg hu, List.map_cons,
          List.reduceOption_cons_of_some, List.filter_cons, ih]
        simp [hu]

/-! ## Claims -/

/-- C1 (counterexample): a batch of N = 3 records in which K = 1 send
fails and 2 succeed makes `send_batch` return 2, the number of
successes — not K = 1 as the claim states. -/
theorem send_batch_two_of_three_counterexample :
    send_batch [(⟨some "100"⟩, .ok), (⟨some "101"⟩, .ok),
        (⟨some "102"⟩, .fail (.kafkaError "broker unavailable"))] = .ok 2 ∧
      (2 : Nat) ≠ 1 :=
  ⟨rfl, by decide⟩

/-- C1 (amended): for every batch of N records in which every send
either succeeds or fails with a caught `KafkaError`, with K of them
failing, `send_batch` returns exactly N − K — the number of sends for
which `send_listing` returned true — after flushing. -/
theorem send_batch_success_count (items : List (PubRecord × SendOutcome))
    (h : ∀ x ∈ items, outcome_caught x.2 = true) :
    send_batch items
      = .ok (items.length - items.countP fun x => x.2 != SendOutcome.ok) := by
  rw [send_batch, send_batch_go_eq items h 0]
  have hc := countP_ok_add_countP_ne items
  have hz : (0 + items.countP fun x => x.2 == SendOutcome.ok)
      = items.length - items.countP fun x => x.2 != SendOutcome.ok := by
    omega
  rw [hz]

/-- C1 (witness): the amended theorem evaluated on the concrete 3-record
batch with one `KafkaError` failure. -/
theorem send_batch_success_count_witness :
    send_batch [(⟨some "100"⟩, .ok), (⟨some "101"⟩, .ok),
        (⟨some "102"⟩, .fail (.kafkaError "broker unavailable"))]
      = .ok (([(⟨some "100"⟩, .ok), (⟨some "101"⟩, .ok),
          (⟨some "102"⟩, .fail (.kafkaError "broker unavailable"))] :
            List (PubRecord × SendOutcome)).length
        - ([(⟨some "100"⟩, .ok), (⟨some "101"⟩, .ok),
            (⟨some "102"⟩, .fail (.kafkaError "broker unavailable"))] :
              List (PubRecord × SendOutcome)).countP
            fun x => x.2 != SendOutcome.ok) :=
  send_batch_success_count _ (by decide)

/-- C2 (counterexample): a record with no `listing_id` key is not sent
keyless — `send_listing` substitutes the fallback key `"unknown"`. -/
theorem message_key_missing_id_counterexample :
    message_key ⟨none⟩ = some "unknown" ∧
      (some "unknown" : Option String) ≠ none := by
  exact ⟨by decide, by decide⟩

/-- C2 (amended): the message key is the raw `listing_id` string
whenever the record carries a non-empty one, and the fallback string
`"unknown"` — not an absent key — when the `listing_id` key is
missing. -/
theorem message_key_id_or_unknown (r : PubRecord) :
    (∀ s, r.listing_id = some s → s ≠ "" → message_key r = some s) ∧
    (r.listing_id = none → message_key r = some "unknown") := by
  constructor
  · intro s hs hne
    simp [message_key, raw_key, hs, hne]
  · intro h
    simp [message_key, raw_key, h]

/-- C2 (witness): the amended theorem evaluated on a record carrying
`listing_id = "9001"`. -/
theorem message_key_id_or_unknown_witness :
    message_key ⟨some "9001"⟩ = some "9001" :=
  (message_key_id_or_unknown ⟨some "9001"⟩).1 "9001" rfl (by decide)

/-- C3 (counterexample): a send failure raising outside the
`KafkaError` hierarchy (e.g. the JSON serializer's `TypeError`) escapes
`send_listing` instead of being converted to `false`. -/
theorem send_listing_nonkafka_escapes :
    send_listing ⟨some "100"⟩ (.fail (.typeError "not JSON serializable"))
        = .error (.typeError "not JSON serializable") ∧
      (Except.error (PyExc.typeError "not JSON serializable")
        ≠ (Except.ok false : Except PyExc Bool)) :=
  ⟨rfl, by simp⟩

/-- C3 (amended): `send_listing` returns true on success and false on
any failure raised as a `KafkaError` (submission and the bounded
acknowledgment wait), but an exception outside the `KafkaError`
hierarchy — such as a serialization `TypeError` — propagates past the
send boundary. -/
theorem send_listing_boundary (r : PubRecord) (m : String) :
    send_listing r .ok = .ok true ∧
    send_listing r (.fail (.kafkaError m)) = .ok false ∧
    send_listing r (.fail (.typeError m)) = .error (.typeError m) :=
  ⟨rfl, rfl, rfl⟩

/-- C4: against a source returning 70 ads with `max_results = 50`, when
every one of the first 50 ads normalizes, `search_cars` returns exactly
50 records, positionally equal to the parses of the first 50 ads in
source order (no re-sorting). -/
theorem search_cars_caps_at_max_results (now : String) (ads : List RawAd)
    (hlen : ads.length = 70)
    (hparse : ∀ a ∈ ads.take 50, (parse_ad now a).isSome) :
    (search_cars now 50 (.ok ads)).map some
        = (ads.take 50).map (parse_ad now) ∧
      (search_cars now 50 (.ok ads)).length = 50 := by
  have h1 : (search_cars now 50 (.ok ads)).map some
      = (ads.take 50).map (parse_ad now) :=
    filterMap_map_some (parse_ad now) (ads.take 50) hparse
  refine ⟨h1, ?_⟩
  have h2 := congrArg List.length h1
  simp only [List.length_map] at h2
  rw [h2, List.length_take, hlen]
  decide

/-- A fully-populated sample ad used to instantiate C4. -/
def sampleAd : RawAd :=
  { ad_id := some "12345", subject := some "Volvo V70",
    price := some (some 45000), year := some 2007, mileage := some 210000,
    location := some (some "Stockholm"),
    images := some [⟨some "https://img.blocket.se/1.jpg"⟩],
    make := some "Volvo", model := some "V70",
    fuel_type := none, transmission := none }

/-- C4 (witness): the theorem evaluated against a source returning 70
copies of `sampleAd`. -/
theorem search_cars_caps_at_max_results_witness :
    (search_cars "2026-10-12" 50 (.ok (List.replicate 70 sampleAd))).map some
        = ((List.replicate 70 sampleAd).take 50).map (parse_ad "2026-10-12") ∧
      (search_cars "2026-10-12" 50 (.ok (List.replicate 70 sampleAd))).length
        = 50 :=
  search_cars_caps_at_max_results "2026-10-12" _ (by simp)
    (by
      intro a ha
      rw [List.take_replicate] at ha
      have haa : a = sampleAd := List.eq_of_mem_replicate ha
      subst haa
      rfl)

/-- C5: when every connection attempt raises `KafkaError`, `_connect`
makes exactly 3 attempts with a fixed sleep of 5 between consecutive
attempts, re-raises after the last one, and `main` catches the failure
and continues in dry-run mode. -/
theorem connect_three_attempts_then_raises (outcome : Nat → Bool)
    (h0 : outcome 0 = false) (h1 : outcome 1 = false)
    (h2 : outcome 2 = false) :
    connect outcome = ⟨3, [5, 5], false⟩ ∧
      init_producer outcome = .dryRun := by
  have hc : connect outcome = ⟨3, [5, 5], false⟩ := by
    simp [connect, connect_go, h0, h1, h2]
  exact ⟨hc, by simp [init_producer, hc]⟩

/-- C5 (witness): the theorem evaluated on the always-failing
connection environment. -/
theorem connect_three_attempts_then_raises_witness :
    connect (fun _ => false) = ⟨3, [5, 5], false⟩ ∧
      init_producer (fun _ => false) = .dryRun :=
  connect_three_attempts_then_raises (fun _ => false) rfl rfl rfl

/-- C6: a raw ad with no `ad_id` attribute normalizes to no record on
the summary path and on the detail path, and on the summary path the ad
is skipped while the rest of the batch is still processed. -/
theorem parse_missing_ad_id_no_record (now : String) (ad : RawAd)
    (d : RawAdDetails) (rest : List RawAd) (n : Nat)
    (h1 : ad.ad_id = none) (h2 : d.ad_id = none) :
    parse_ad now ad = none ∧ parse_ad_details now d = none ∧
      search_cars now (n + 1) (.ok (ad :: rest))
        = search_cars now n (.ok rest) := by
  refine ⟨?_, ?_, ?_⟩
  · simp [parse_ad, h1]
  · simp [parse_ad_details, h2]
  · simp [search_cars, List.take_succ_cons, List.filterMap_cons, parse_ad, h1]

/-- An ad lacking the `ad_id` attribute, used to instantiate C6. -/
def adWithoutId : RawAd :=
  { ad_id := none, subject := some "mystery", price := none, year := none,
    mileage := none, location := none, images := none, make := none,
    model := none, fuel_type := none, transmission := none }

/-- A detail ad lacking the `ad_id` attribute, used to instantiate C6. -/
def detailWithoutId : RawAdDetails :=
  { toRawAd := adWithoutId, body := none, list_time := none,
    body_type := none, color := none, engine_power := none }

/-- C6 (witness): the theorem evaluated on the concrete id-less ads. -/
theorem parse_missing_ad_id_no_record_witness :
    parse_ad "t" adWithoutId = none ∧
      parse_ad_details "t" detailWithoutId = none ∧
      search_cars "t" 1 (.ok [adWithoutId]) = search_cars "t" 0 (.ok []) :=
  parse_missing_ad_id_no_record "t" adWithoutId detailWithoutId [] 0 rfl rfl

/-- C7: when the external search call raises, `search_cars` returns the
empty list rather than propagating, which is the same value a
legitimately empty search produces. -/
theorem search_cars_failed_fetch_empty (now : String) (max_results : Nat)
    (msg : String) :
    search_cars now max_results (.raised msg) = [] ∧
      search_cars now max_results (.ok []) = [] :=
  ⟨rfl, by simp [search_cars]⟩

/-- C8: summary extraction yields at most one URL — exactly the first
image's URL, or nothing when there are no images — and detail
extraction yields all present, non-empty URLs in source order with
duplicates preserved. -/
theorem image_extraction_matches_spec (ad : RawAd) :
    extract_image ad = spec_first_image ad ∧
      extract_all_images ad = spec_all_images ad := by
  obtain ⟨aid, subj, pr, yr, mil, loc, imgs, mk, md, ft, tr⟩ := ad
  constructor
  · cases imgs with
    | none => rfl
    | some l =>
      cases l with
      | nil => rfl
      | cons i tl => simp [extract_image, spec_first_image]
  · cases imgs with
    | none => rfl
    | some l =>
      cases l with
      | nil => rfl
      | cons i tl =>
        simpa [extract_all_images, spec_all_images] using
          filterMap_url_eq (i :: tl)

/-- C9: the driver's aggregate statistics over
`[{price:100000, year:2010}, {price:null, year:2005},
{price:50000, year:null}]` report a mean price of exactly 75000
(averaging the two non-null prices) and the year range 2005–2010 (over
the two non-null years). -/
theorem aggregate_stats_example :
    main_stats [⟨some 100000, some 2010⟩, ⟨none, some 2005⟩,
        ⟨some 50000, none⟩]
      = .ok (some (75000, some (2005, 2010))) := by
  norm_num [main_stats, mean_price, year_range, year_list,
    truthy_price, truthy_year, List.filter_cons, List.min?, List.max?,
    List.foldl, min_def, max_def]

/-- C10: when the run collects at least one listing but every collected
price is falsy (absent, null, or 0 — zeros are excluded from both the
numerator and the denominator), the mean-price division's denominator
is zero and `main` raises `ZeroDivisionError`: the statistics block is
guarded only by the listing list being non-empty. -/
theorem mean_price_zero_division (ls : List StatRecord)
    (hne : ls ≠ []) (hfalsy : ∀ l ∈ ls, truthy_price l = false) :
    main_stats ls = .error "ZeroDivisionError" := by
  have hfil : ls.filter truthy_price = [] := by
    rw [List.filter_eq_nil_iff]
    intro a ha
    simp [hfalsy a ha]
  have hemp : ls.isEmpty = false := by
    cases ls with
    | nil => exact absurd rfl hne
    | cons a tl => rfl
  have hmean : mean_price ls = .error "ZeroDivisionError" := by
    simp [mean_price, hfil]
  simp [main_stats, hemp, hmean]

/-- C10 (witness): the theorem evaluated on a single listing whose
price is the falsy number 0. -/
theorem mean_price_zero_division_witness :
    ([⟨some 0, none⟩] : List StatRecord) ≠ [] ∧
      main_stats [⟨some 0, none⟩] = .error "ZeroDivisionError" :=
  ⟨by decide, mean_price_zero_division [⟨some 0, none⟩] (by decide) (by decide)⟩

end CarScraper
